import Mathlib

/-!
Shallow embedding of `torchvision/datasets/_optical_flow.py`.

The module defines two binary flow-file readers and three optical-flow
dataset classes (Sintel, KittiFlow, FlyingChairs) over an abstract base
class `FlowDataset`.  The embedding models:

* file paths as `String`s; `Image.open` as an opaque wrapper around the path;
* the result of `np.fromfile` on a `.flo` file at read granularity
  (`FloFile`): the decoded float32 magic as an exact rational (202021.25 is
  exactly representable in float32, and equality of decoded float32 values
  coincides with equality of the rationals they denote), int32 dims, float32
  payload;
* the result of `_read_png_16` on a KITTI flow PNG as a 3-channel grid of
  16-bit naturals (`Png16`); the conversion `to(torch.float32)` and the
  arithmetic `(x - 2**15) / 64` are exact in float32 for 16-bit inputs, so
  rationals model them faithfully;
* Python `sorted` on the glob results as `List.insertionSort (· ≤ ·)`
  (a stable sort; on a linear order it computes the same list);
* exceptions (`ValueError`, `FileNotFoundError`, `IndexError`) as `Except`;
* dataset objects as a `DatasetState` record; `__getitem__` is given in a
  state-passing form `getitemSt` returning the (unchanged, since the source
  never writes an attribute after `__init__`) post-state next to the sample.
-/

namespace OpticalFlow

/-- Python exceptions raised by the module. -/
inductive Err where
  | valueError (msg : String)
  | fileNotFoundError (msg : String)
  | indexError
  deriving DecidableEq

/-- Result of `PIL.Image.open(file_name)`: an opaque handle on the path. -/
structure Image where
  path : String
  deriving DecidableEq

/-- Result of `_read_flo`: header dims and the float buffer reshaped `(2, h, w)`. -/
structure FloFlow where
  w : Nat
  h : Nat
  data : List ℚ
  deriving DecidableEq

/-- Contents of a `.flo` file at `np.fromfile` granularity. -/
structure FloFile where
  magic : ℚ
  w : Nat
  h : Nat
  data : List ℚ
  deriving DecidableEq

/-- Reading a `.flo` file in Middlebury format (`_read_flo`): check the magic
number, then reshape the payload to `(2, h, w)` (which in numpy requires the
element count to match exactly). -/
def _read_flo (f : FloFile) : Except Err FloFlow :=
  if f.magic ≠ 202021.25 then
    .error (.valueError "Magic number incorrect. Invalid .flo file")
  else if f.data.length ≠ 2 * f.w * f.h then
    .error (.valueError "cannot reshape array")
  else
    .ok ⟨f.w, f.h, f.data⟩

/-- Result of `_read_png_16` on a KITTI flow map: a `(3, H, W)` grid of
16-bit unsigned values, one field per channel. -/
structure Png16 where
  ch0 : List (List ℕ)
  ch1 : List (List ℕ)
  ch2 : List (List ℕ)
  deriving DecidableEq

/-- Grid of float values, shape `(H, W)`. -/
abbrev Grid := List (List ℚ)

/-- Reading a 16-bit PNG with flow and valid mask
(`_read_16bits_png_with_flow_and_valid_mask`): convert to float32, slice the
first two channels as flow and channel 2 as valid, and decode the flow as
`(flow - 2 ** 15) / 64`. -/
def _read_16bits_png_with_flow_and_valid_mask (png : Png16) :
    List Grid × Grid :=
  let toFloat : List (List ℕ) → Grid := fun ch => ch.map (List.map (fun (x : ℕ) => (x : ℚ)))
  let flow_and_valid : List Grid := [toFloat png.ch0, toFloat png.ch1, toFloat png.ch2]
  let flow := flow_and_valid.take 2
  let valid := flow_and_valid.getD 2 []
  let flow := flow.map (fun ch => ch.map (List.map (fun x => (x - 2 ^ 15) / 64)))
  (flow, valid)

/-- Flow payload attached to a sample: a `.flo` field or the flow part of a
16-bit PNG. -/
inductive FlowData where
  | flo (f : FloFlow)
  | png (flow : List Grid)
  deriving DecidableEq

/-- Tuple returned by `FlowDataset.__getitem__`: a 3-tuple for variants
without a built-in valid mask, a 4-tuple for those with one. -/
inductive Sample where
  | triple (img1 img2 : Image) (flow : Option FlowData)
  | quad (img1 img2 : Image) (flow : Option FlowData) (valid : Option Grid)
  deriving DecidableEq

/-- Whether a sample is a 4-tuple `(img1, img2, flow, valid)`. -/
def Sample.isQuad : Sample → Bool
  | .quad _ _ _ _ => true
  | .triple _ _ _ => false

/-- User transform: takes `(img1, img2, flow, valid)` and returns a 4-tuple. -/
abbrev Transform := Image × Image × Option FlowData × Option Grid →
    Image × Image × Option FlowData × Option Grid

/-- State of a constructed `FlowDataset` instance: the class flag
`_has_builtin_flow_mask`, the optional transform, the two parallel index
lists built by `__init__`, and the variant's `_read_flow` method (a closure
over the on-disk flow-file contents). -/
structure DatasetState where
  _has_builtin_flow_mask : Bool
  transforms : Option Transform
  _flow_list : List String
  _image_list : List (String × String)
  _read_flow : String → Except Err (FlowData × Option Grid)

/-- Dataset split argument. -/
inductive Split where
  | train
  | test
  | val
  deriving DecidableEq

/-- Python `sorted` on a list of path strings. -/
def sortedGlob (l : List String) : List String := l.insertionSort (· ≤ ·)

/-- `FlowDataset.__len__`. -/
def FlowDataset.len (self : DatasetState) : Nat := self._image_list.length

/-- `FlowDataset.__getitem__` in state-passing form: the post-state is
returned next to the sample (the method body never assigns an attribute, so
every branch returns `self` unchanged).  Out-of-range list indexing raises
`IndexError`; a failing `_read_flow` propagates its exception. -/
def FlowDataset.getitemSt (self : DatasetState) (index : Nat) :
    Except Err Sample × DatasetState :=
  match self._image_list[index]? with
  | none => (.error .indexError, self)
  | some pair =>
    let img1 := Image.mk pair.1
    let img2 := Image.mk pair.2
    let fv : Except Err (Option FlowData × Option Grid) :=
      if self._flow_list.isEmpty then
        .ok (none, none)
      else
        match self._flow_list[index]? with
        | none => .error .indexError
        | some fp =>
          match self._read_flow fp with
          | .error e => .error e
          | .ok (f, v) =>
            if self._has_builtin_flow_mask then .ok (some f, v) else .ok (some f, none)
    match fv with
    | .error e => (.error e, self)
    | .ok (flow, valid) =>
      match self.transforms with
      | none =>
        if self._has_builtin_flow_mask then
          (.ok (.quad img1 img2 flow valid), self)
        else
          (.ok (.triple img1 img2 flow), self)
      | some t =>
        let r := t (img1, img2, flow, valid)
        if self._has_builtin_flow_mask then
          (.ok (.quad r.1 r.2.1 r.2.2.1 r.2.2.2), self)
        else
          (.ok (.triple r.1 r.2.1 r.2.2.1), self)

/-- `FlowDataset.__getitem__` proper: the sample (or exception) alone. -/
def FlowDataset.getitem (self : DatasetState) (index : Nat) : Except Err Sample :=
  (FlowDataset.getitemSt self index).1

/-- One scene as seen by `Sintel.__init__`: the scene name from
`os.listdir(image_root)` together with the (unsorted) glob results for its
images under `image_root / scene` and its flow files under
`flow_root / scene`. -/
structure SceneData where
  name : String
  imageGlob : List String
  flowGlob : List String

/-- Image pairs contributed by one Sintel scene: consecutive entries
`(image_list[i], image_list[i+1])` of the sorted image list, for
`i` in `range(len(image_list) - 1)`. -/
def scenePairs (scene : SceneData) : List (String × String) :=
  let image_list := sortedGlob scene.imageGlob
  (List.range (image_list.length - 1)).map
    (fun i => (image_list.getD i "", image_list.getD (i + 1) ""))

/-- `Sintel.__init__`: validate the split (`verify_str_arg`, modelled from
its documented behaviour of raising `ValueError` on a value outside the
allow-list), then for each scene append the consecutive image pairs, and on
the train split the sorted flow files of that scene.  The argument `floFS`
maps a flow path to the `.flo` file contents on disk; `pass_name` only
selects which directory tree `scenes` was listed from, so it is absorbed by
the `scenes` argument. -/
def Sintel.init (scenes : List SceneData) (split : Split)
    (transforms : Option Transform) (floFS : String → FloFile) :
    Except Err DatasetState :=
  if split = .train ∨ split = .test then
    .ok { _has_builtin_flow_mask := false
          transforms := transforms
          _flow_list :=
            (scenes.foldl
              (fun acc scene => (acc.1 ++ scenePairs scene,
                acc.2 ++ if split = .train then sortedGlob scene.flowGlob else []))
              ([], [])).2
          _image_list :=
            (scenes.foldl
              (fun acc scene => (acc.1 ++ scenePairs scene,
                acc.2 ++ if split = .train then sortedGlob scene.flowGlob else []))
              ([], [])).1
          _read_flow := fun p => (_read_flo (floFS p)).map (fun f => (.flo f, none)) }
  else
    .error (.valueError "Unknown value for argument split.")

/-- `KittiFlow.__init__`: validate the split, sort the two image globs,
fail with `FileNotFoundError` when either is empty, zip them into pairs,
and on the train split sort the `flow_occ` glob.  The argument `pngFS` maps
a flow path to the 16-bit PNG contents on disk. -/
def KittiFlow.init (images1Glob images2Glob flowGlob : List String)
    (split : Split) (transforms : Option Transform) (pngFS : String → Png16) :
    Except Err DatasetState :=
  if split = .train ∨ split = .test then
    if (sortedGlob images1Glob).isEmpty ∨ (sortedGlob images2Glob).isEmpty then
      .error (.fileNotFoundError
        "Could not find the Kitti flow images. Please make sure the directory structure is correct.")
    else
      .ok { _has_builtin_flow_mask := true
            transforms := transforms
            _flow_list := if split = .train then sortedGlob flowGlob else []
            _image_list := (sortedGlob images1Glob).zip (sortedGlob images2Glob)
            _read_flow := fun p =>
              .ok (.png (_read_16bits_png_with_flow_and_valid_mask (pngFS p)).1,
                some (_read_16bits_png_with_flow_and_valid_mask (pngFS p)).2) }
  else
    .error (.valueError "Unknown value for argument split.")

/-- Whether `FlyingChairs.__init__` retains flow index `i`: split-assignment
value 1 is kept on the train split, value 2 on the val split. -/
def chairsKeep (split : Split) (split_id : Int) : Bool :=
  (split = .train && split_id = 1) || (split = .val && split_id = 2)

/-- Body of the `for i in range(len(flows))` loop of `FlyingChairs.__init__`,
processing the given indices in order and accumulating
`(_image_list, _flow_list)`.  Each list indexing that Python performs is
modelled: `split_list[i]`, `images[2*i]` and `images[2*i+1]` raise
`IndexError` when out of range (`flows[i]` cannot, since `i < len(flows)`). -/
def chairsLoopGo (split : Split) (split_list : List Int)
    (images flows : List String) :
    List Nat → List (String × String) × List String →
    Except Err (List (String × String) × List String)
  | [], acc => .ok acc
  | i :: rest, acc =>
    match split_list[i]? with
    | none => .error .indexError
    | some split_id =>
      if chairsKeep split split_id then
        match images[2 * i]? with
        | none => .error .indexError
        | some a =>
          match images[2 * i + 1]? with
          | none => .error .indexError
          | some b =>
            chairsLoopGo split split_list images flows rest
              (acc.1 ++ [(a, b)], acc.2 ++ [flows.getD i ""])
      else
        chairsLoopGo split split_list images flows rest acc

/-- `FlyingChairs.__init__`: validate the split, sort the image and flow
globs, fail with `FileNotFoundError` when the split-assignment file is
absent, then run the filtering loop.  `splitFile` is the parsed content of
`FlyingChairs_train_val.txt` (`np.loadtxt`), or `none` when the file does
not exist. -/
def FlyingChairs.init (imagesGlob flowsGlob : List String)
    (splitFile : Option (List Int)) (split : Split)
    (transforms : Option Transform) (floFS : String → FloFile) :
    Except Err DatasetState :=
  if split = .train ∨ split = .val then
    match splitFile with
    | none =>
      .error (.fileNotFoundError
        "The FlyingChairs_train_val.txt file was not found - please download it from the dataset page (see docstring).")
    | some split_list =>
      match chairsLoopGo split split_list (sortedGlob imagesGlob) (sortedGlob flowsGlob)
          (List.range (sortedGlob flowsGlob).length) ([], []) with
      | .error e => .error e
      | .ok lists =>
        .ok { _has_builtin_flow_mask := false
              transforms := transforms
              _flow_list := lists.2
              _image_list := lists.1
              _read_flow := fun p => (_read_flo (floFS p)).map (fun f => (.flo f, none)) }
  else
    .error (.valueError "Unknown value for argument split.")

/-- Default `.flo` file system used by concrete instances in witnesses: every
path holds a well-formed 1x1 flow file. -/
def defaultFloFS : String → FloFile := fun _ => ⟨202021.25, 1, 1, [0, 0]⟩

/-- Default PNG file system used by concrete instances in witnesses: every
path holds a 1x1 KITTI flow map with raw values `(32768, 32832, 1)`. -/
def defaultPngFS : String → Png16 := fun _ => ⟨[[32768]], [[32832]], [[1]]⟩

example : sortedGlob ["b", "a", "c"] = ["a", "b", "c"] := by
  simp [sortedGlob, List.insertionSort, List.orderedInsert]
  decide

example : chairsLoopGo .train [1, 2, 1] ["a", "b", "c", "d", "e", "f"] ["x", "y", "z"]
    (List.range 3) ([], []) = .ok ([("a", "b"), ("e", "f")], ["x", "z"]) := rfl

/-! ### Helper lemmas -/

/-- The body of `__getitem__` never assigns an attribute: every branch of
`getitemSt` returns `self` unchanged as the post-state. -/
theorem getitemSt_snd (self : DatasetState) (index : Nat) :
    (FlowDataset.getitemSt self index).2 = self := by
  unfold FlowDataset.getitemSt
  repeat' split <;> try rfl

/-- Whether a `__getitem__` outcome is a 4-tuple or an exception. -/
def quadOrError : Except Err Sample → Bool
  | .ok s => s.isQuad
  | .error _ => true

/-- Whether a `__getitem__` outcome is a 3-tuple or an exception. -/
def tripleOrError : Except Err Sample → Bool
  | .ok s => !s.isQuad
  | .error _ => true

/-- A state with the built-in-mask flag set always produces a 4-tuple when
`__getitem__` returns at all. -/
theorem getitem_quad_of_flag (self : DatasetState) (index : Nat)
    (hf : self._has_builtin_flow_mask = true) :
    quadOrError (FlowDataset.getitem self index) = true := by
  unfold FlowDataset.getitem FlowDataset.getitemSt
  (repeat' split) <;> first | rfl | simp_all

/-- A state with the built-in-mask flag cleared always produces a 3-tuple
when `__getitem__` returns at all. -/
theorem getitem_triple_of_flag (self : DatasetState) (index : Nat)
    (hf : self._has_builtin_flow_mask = false) :
    tripleOrError (FlowDataset.getitem self index) = true := by
  unfold FlowDataset.getitem FlowDataset.getitemSt
  (repeat' split) <;> first | rfl | simp_all

/-- Folding an append-on-both-components step over a list is concatenation
of the two flatMaps. -/
theorem foldl_append_pair {α β γ : Type _} (f : α → List β) (g : α → List γ) :
    ∀ (l : List α) (a : List β) (b : List γ),
      l.foldl (fun acc s => (acc.1 ++ f s, acc.2 ++ g s)) (a, b)
        = (a ++ l.flatMap f, b ++ l.flatMap g)
  | [], a, b => by simp
  | s :: l, a, b => by
    simp only [List.foldl_cons, foldl_append_pair f g l, List.flatMap_cons,
      List.append_assoc]

/-- A flatMap of the constant empty list is empty. -/
theorem flatMap_nil_fun {α β : Type _} (l : List α) :
    l.flatMap (fun _ => ([] : List β)) = [] := by
  induction l <;> simp_all

/-- Inversion of a successful `Sintel.__init__`. -/
theorem sintel_init_inv {scenes : List SceneData} {split : Split}
    {t : Option Transform} {fs : String → FloFile} {st : DatasetState}
    (h : Sintel.init scenes split t fs = .ok st) :
    (split = .train ∨ split = .test) ∧
    st._has_builtin_flow_mask = false ∧
    st.transforms = t ∧
    st._image_list = scenes.flatMap scenePairs ∧
    st._flow_list =
      (if split = .train then scenes.flatMap (fun s => sortedGlob s.flowGlob) else []) := by
  unfold Sintel.init at h
  by_cases hsplit : split = .train ∨ split = .test
  · rw [if_pos hsplit] at h
    injection h with h
    subst h
    refine ⟨hsplit, rfl, rfl, ?_, ?_⟩
    · rw [foldl_append_pair]
      simp
    · rw [foldl_append_pair]
      by_cases htr : split = .train
      · simp [htr]
      · simp [htr, flatMap_nil_fun]
  · rw [if_neg hsplit] at h
    exact absurd h (by simp)

/-- Inversion of a successful `KittiFlow.__init__`. -/
theorem kitti_init_inv {g1 g2 fg : List String} {split : Split}
    {t : Option Transform} {fs : String → Png16} {st : DatasetState}
    (h : KittiFlow.init g1 g2 fg split t fs = .ok st) :
    (split = .train ∨ split = .test) ∧
    st._has_builtin_flow_mask = true ∧
    st.transforms = t ∧
    st._image_list = (sortedGlob g1).zip (sortedGlob g2) ∧
    st._flow_list = (if split = .train then sortedGlob fg else []) ∧
    (sortedGlob g1).isEmpty = false ∧ (sortedGlob g2).isEmpty = false := by
  unfold KittiFlow.init at h
  by_cases hsplit : split = .train ∨ split = .test
  · rw [if_pos hsplit] at h
    by_cases hemp : (sortedGlob g1).isEmpty = true ∨ (sortedGlob g2).isEmpty = true
    · rw [if_pos hemp] at h
      exact absurd h (by simp)
    · rw [if_neg hemp] at h
      rw [not_or, Bool.not_eq_true, Bool.not_eq_true] at hemp
      injection h with h
      subst h
      exact ⟨hsplit, rfl, rfl, rfl, rfl, hemp.1, hemp.2⟩
  · rw [if_neg hsplit] at h
    exact absurd h (by simp)

/-- Inversion of a successful `FlyingChairs.__init__`. -/
theorem chairs_init_inv {ig fg : List String} {split_list : List Int}
    {split : Split} {t : Option Transform} {fs : String → FloFile} {st : DatasetState}
    (h : FlyingChairs.init ig fg (some split_list) split t fs = .ok st) :
    (split = .train ∨ split = .val) ∧
    st._has_builtin_flow_mask = false ∧
    st.transforms = t ∧
    chairsLoopGo split split_list (sortedGlob ig) (sortedGlob fg)
      (List.range (sortedGlob fg).length) ([], []) = .ok (st._image_list, st._flow_list) := by
  unfold FlyingChairs.init at h
  by_cases hsplit : split = .train ∨ split = .val
  · rw [if_pos hsplit] at h
    split at h
    next => exact absurd h (by simp)
    next sl hsome =>
      injection hsome with hsome
      subst hsome
      split at h
      next e hloop => exact absurd h (by simp)
      next lists hloop =>
        injection h with h
        subst h
        exact ⟨hsplit, rfl, rfl, hloop⟩
  · rw [if_neg hsplit] at h
    exact absurd h (by simp)

/-- Characterization of a successful run of the FlyingChairs filtering loop:
the accumulated image pairs and flow paths are maps over the retained
indices, in order. -/
theorem chairsLoopGo_ok {split : Split} {split_list : List Int}
    {images flows : List String} :
    ∀ (idxs : List Nat) (acc res : List (String × String) × List String),
      chairsLoopGo split split_list images flows idxs acc = .ok res →
      res.1 = acc.1 ++ (idxs.filter (fun i => chairsKeep split (split_list.getD i 0))).map
          (fun i => (images.getD (2 * i) "", images.getD (2 * i + 1) "")) ∧
      res.2 = acc.2 ++ (idxs.filter (fun i => chairsKeep split (split_list.getD i 0))).map
          (fun i => flows.getD i "")
  | [], acc, res, h => by
    injection h with h
    subst h
    simp
  | i :: rest, acc, res, h => by
    unfold chairsLoopGo at h
    split at h
    next => exact absurd h (by simp)
    next sid hsid =>
      have hgd : split_list.getD i 0 = sid := by
        rw [List.getD_eq_getElem?_getD, hsid]
        rfl
      by_cases hk : chairsKeep split sid = true
      · rw [if_pos hk] at h
        split at h
        next => exact absurd h (by simp)
        next a ha =>
          split at h
          next => exact absurd h (by simp)
          next b hb =>
            have ih := chairsLoopGo_ok rest _ res h
            have hda : images.getD (2 * i) "" = a := by
              rw [List.getD_eq_getElem?_getD, ha]
              rfl
            have hdb : images.getD (2 * i + 1) "" = b := by
              rw [List.getD_eq_getElem?_getD, hb]
              rfl
            rw [List.filter_cons_of_pos (by simpa [List.getD_eq_getElem?_getD, hsid] using hk)]
            refine ⟨?_, ?_⟩
            · rw [ih.1]
              simp [ha, hb]
            · rw [ih.2]
              simp
      · rw [if_neg hk] at h
        have ih := chairsLoopGo_ok rest _ res h
        rw [List.filter_cons_of_neg (by simpa [List.getD_eq_getElem?_getD, hsid] using hk)]
        exact ih

/-- The FlyingChairs filtering loop succeeds exactly when every processed
index is within the split-assignment list and, when retained, within the
image list. -/
theorem chairsLoopGo_isOk_iff {split : Split} {split_list : List Int}
    {images flows : List String} :
    ∀ (idxs : List Nat) (acc : List (String × String) × List String),
      (∃ res, chairsLoopGo split split_list images flows idxs acc = .ok res) ↔
      (∀ i ∈ idxs, i < split_list.length ∧
        (chairsKeep split (split_list.getD i 0) = true → 2 * i + 1 < images.length))
  | [], acc => by simp [chairsLoopGo]
  | i :: rest, acc => by
    unfold chairsLoopGo
    cases hsid : split_list[i]? with
    | none =>
      have hlen : split_list.length ≤ i := by
        simpa using List.getElem?_eq_none_iff.mp hsid
      dsimp only
      simp only [List.mem_cons, forall_eq_or_imp]
      constructor
      · rintro ⟨res, hres⟩
        exact absurd hres (by simp)
      · rintro ⟨⟨hi, _⟩, _⟩
        omega
    | some sid =>
      have hi : i < split_list.length := by
        obtain ⟨hlt, _⟩ := List.getElem?_eq_some.mp hsid
        exact hlt
      have hgd : split_list.getD i 0 = sid := by
        rw [List.getD_eq_getElem?_getD, hsid]
        rfl
      dsimp only
      by_cases hk : chairsKeep split sid = true
      · rw [if_pos hk]
        cases ha : images[2 * i]? with
        | none =>
          have hlen : images.length ≤ 2 * i := by
            simpa using List.getElem?_eq_none_iff.mp ha
          dsimp only
          simp only [List.mem_cons, forall_eq_or_imp, hgd, hk]
          constructor
          · rintro ⟨res, hres⟩
            exact absurd hres (by simp)
          · rintro ⟨⟨_, hb⟩, _⟩
            have := hb trivial
            omega
        | some a =>
          cases hb : images[2 * i + 1]? with
          | none =>
            have hlen : images.length ≤ 2 * i + 1 := by
              simpa using List.getElem?_eq_none_iff.mp hb
            dsimp only
            simp only [List.mem_cons, forall_eq_or_imp, hgd, hk]
            constructor
            · rintro ⟨res, hres⟩
              exact absurd hres (by simp)
            · rintro ⟨⟨_, hbnd⟩, _⟩
              have := hbnd trivial
              omega
          | some b =>
            have hbnd : 2 * i + 1 < images.length := by
              obtain ⟨hlt, _⟩ := List.getElem?_eq_some.mp hb
              exact hlt
            dsimp only
            rw [chairsLoopGo_isOk_iff rest _]
            simp only [List.mem_cons, forall_eq_or_imp, hgd, hk]
            constructor
            · intro hrest
              exact ⟨⟨hi, fun _ => hbnd⟩, hrest⟩
            · rintro ⟨_, hrest⟩
              exact hrest
      · rw [if_neg hk]
        rw [chairsLoopGo_isOk_iff rest _]
        simp only [List.mem_cons, forall_eq_or_imp, hgd]
        constructor
        · intro hrest
          exact ⟨⟨hi, fun hkk => absurd hkk hk⟩, hrest⟩
        · rintro ⟨_, hrest⟩
          exact hrest

/-! ### Concrete instances used by witnesses and counterexamples -/

/-- Fallback dataset state used to project concrete constructions out of
`Except`. -/
def emptyState : DatasetState :=
  { _has_builtin_flow_mask := false
    transforms := none
    _flow_list := []
    _image_list := []
    _read_flow := fun _ => .error .indexError }

/-- Concrete KittiFlow instance: one `_10`/`_11` pair, one flow map. -/
def kittiW : DatasetState :=
  (KittiFlow.init ["a"] ["b"] ["f"] .train none defaultPngFS).toOption.getD emptyState

/-- Concrete Sintel instance: one scene with a single frame and no flow files. -/
def sintelW : DatasetState :=
  (Sintel.init [⟨"s", ["a"], []⟩] .train none defaultFloFS).toOption.getD emptyState

/-- Concrete FlyingChairs instance: one flow file, dropped by the split filter. -/
def chairsW : DatasetState :=
  (FlyingChairs.init [] ["f"] (some [2]) .train none defaultFloFS).toOption.getD emptyState

/-! ### Claims -/

/-- C3: for every `.flo` input whose leading float32 is not 202021.25, the
reader raises the invalid-magic-number `ValueError` and returns no flow
field. -/
theorem flo_bad_magic_fails (f : FloFile) (h : f.magic ≠ 202021.25) :
    _read_flo f = .error (.valueError "Magic number incorrect. Invalid .flo file") := by
  unfold _read_flo
  rw [if_pos h]

/-- Witness for C3 at a concrete file with magic 0. -/
theorem flo_bad_magic_fails_witness :
    (0 : ℚ) ≠ 202021.25 ∧
    _read_flo ⟨0, 1, 1, [0, 0]⟩ =
      .error (.valueError "Magic number incorrect. Invalid .flo file") :=
  ⟨by norm_num, flo_bad_magic_fails ⟨0, 1, 1, [0, 0]⟩ (by norm_num)⟩

/-- C8: for every 16-bit masked flow PNG input, a flow value at channel 0 or
1 equals `(raw - 2 ^ 15) / 64` for the raw 16-bit value at that position. -/
theorem png_flow_decode (png : Png16) (i j : Nat) (row0 row1 : List Nat) (r0 r1 : Nat)
    (h0 : png.ch0[i]? = some row0) (h0j : row0[j]? = some r0)
    (h1 : png.ch1[i]? = some row1) (h1j : row1[j]? = some r1) :
    ((_read_16bits_png_with_flow_and_valid_mask png).1[0]?.bind
        (fun ch => ch[i]?)).bind (fun row => row[j]?) = some (((r0 : ℚ) - 2 ^ 15) / 64) ∧
    ((_read_16bits_png_with_flow_and_valid_mask png).1[1]?.bind
        (fun ch => ch[i]?)).bind (fun row => row[j]?) = some (((r1 : ℚ) - 2 ^ 15) / 64) := by
  unfold _read_16bits_png_with_flow_and_valid_mask
  dsimp only
  constructor <;> simp [List.getElem?_map, h0, h0j, h1, h1j]

/-- Witness for C8 on a 1x1 grid with raw values (32768, 32832, 1): the
decoded flow is (0, 1). -/
theorem png_flow_decode_witness :
    ((_read_16bits_png_with_flow_and_valid_mask ⟨[[32768]], [[32832]], [[1]]⟩).1[0]?.bind
        (fun ch => ch[0]?)).bind (fun row => row[0]?) = some 0 ∧
    ((_read_16bits_png_with_flow_and_valid_mask ⟨[[32768]], [[32832]], [[1]]⟩).1[1]?.bind
        (fun ch => ch[0]?)).bind (fun row => row[0]?) = some 1 := by
  have h := png_flow_decode ⟨[[32768]], [[32832]], [[1]]⟩ 0 0 [32768] [32832] 32768 32832
    rfl rfl rfl rfl
  refine ⟨?_, ?_⟩
  · rw [h.1]
    norm_num
  · rw [h.2]
    norm_num

/-- C2 counterexample: the reader applies no thresholding to channel 2, so a
raw channel-2 value of 2 yields the valid entry 2, which is neither 0 nor 1:
the claim that the valid grid is boolean-valued for every input is false. -/
theorem png_valid_not_boolean_cex :
    (_read_16bits_png_with_flow_and_valid_mask ⟨[[32768]], [[32768]], [[2]]⟩).2 =
      [[((2 : ℕ) : ℚ)]] ∧
    ¬(((2 : ℕ) : ℚ) = 0 ∨ ((2 : ℕ) : ℚ) = 1) :=
  ⟨rfl, by norm_num⟩

/-- C2 amended: the valid grid equals the raw channel-2 values converted to
float, with no thresholding; it is boolean-valued exactly on inputs whose
raw channel-2 values are already 0 or 1 (KITTI's own encoding). -/
theorem png_valid_channel2 (png : Png16)
    (h : ∀ row ∈ png.ch2, ∀ x ∈ row, x = 0 ∨ x = 1) :
    (_read_16bits_png_with_flow_and_valid_mask png).2 =
      png.ch2.map (List.map (fun (x : ℕ) => (x : ℚ))) ∧
    ∀ row ∈ (_read_16bits_png_with_flow_and_valid_mask png).2,
      ∀ v ∈ row, v = 0 ∨ v = 1 := by
  refine ⟨rfl, ?_⟩
  intro row hrow v hv
  have hrow' : row ∈ png.ch2.map (List.map (fun (x : ℕ) => (x : ℚ))) := hrow
  rw [List.mem_map] at hrow'
  obtain ⟨raw, hraw, hrowe⟩ := hrow'
  subst hrowe
  rw [List.mem_map] at hv
  obtain ⟨x, hx, hve⟩ := hv
  subst hve
  rcases h raw hraw x hx with h0 | h1
  · subst h0
    left
    norm_num
  · subst h1
    right
    norm_num

/-- Witness for C2 (amended) on a grid whose channel 2 holds only 0 and 1. -/
theorem png_valid_channel2_witness :
    (∀ row ∈ (Png16.mk [[1]] [[1]] [[0, 1]]).ch2, ∀ x ∈ row, x = 0 ∨ x = 1) ∧
    ((_read_16bits_png_with_flow_and_valid_mask ⟨[[1]], [[1]], [[0, 1]]⟩).2 =
      [[0, 1]].map (List.map (fun (x : ℕ) => (x : ℚ))) ∧
    ∀ row ∈ (_read_16bits_png_with_flow_and_valid_mask ⟨[[1]], [[1]], [[0, 1]]⟩).2,
      ∀ v ∈ row, v = 0 ∨ v = 1) :=
  ⟨by decide, png_valid_channel2 ⟨[[1]], [[1]], [[0, 1]]⟩ (by decide)⟩

/-- C9: with no transform configured, `__getitem__` mutates no dataset state
and two calls at the same index return identical results. -/
theorem getitem_deterministic (d : DatasetState) (index : Nat)
    (h : d.transforms = none) :
    (FlowDataset.getitemSt d index).2 = d ∧
    (FlowDataset.getitemSt (FlowDataset.getitemSt d index).2 index).1 =
      (FlowDataset.getitemSt d index).1 := by
  refine ⟨getitemSt_snd d index, ?_⟩
  rw [getitemSt_snd d index]

/-- Witness for C9 at the concrete Sintel instance. -/
theorem getitem_deterministic_witness :
    sintelW.transforms = none ∧
    ((FlowDataset.getitemSt sintelW 0).2 = sintelW ∧
    (FlowDataset.getitemSt (FlowDataset.getitemSt sintelW 0).2 0).1 =
      (FlowDataset.getitemSt sintelW 0).1) :=
  ⟨rfl, getitem_deterministic sintelW 0 rfl⟩

/-- Each Sintel scene with n frames contributes n - 1 consecutive pairs. -/
theorem scenePairs_length (scene : SceneData) :
    (scenePairs scene).length = scene.imageGlob.length - 1 := by
  simp [scenePairs, sortedGlob, List.length_insertionSort]

/-- The size of a Sintel instance is the sum over scenes of frame count
minus one. -/
theorem sintel_len {scenes : List SceneData} {split : Split}
    {t : Option Transform} {fs : String → FloFile} {st : DatasetState}
    (h : Sintel.init scenes split t fs = .ok st) :
    FlowDataset.len st = (scenes.map (fun s => s.imageGlob.length - 1)).sum := by
  unfold FlowDataset.len
  rw [(sintel_init_inv h).2.2.2.1, List.length_flatMap]
  have hfun : (List.length ∘ scenePairs) = fun s : SceneData => s.imageGlob.length - 1 := by
    funext s
    simp [Function.comp, scenePairs_length]
  rw [hfun]

/-- A FlyingChairs construction with a missing split file never succeeds. -/
theorem chairs_init_none {ig fg : List String} {split : Split}
    {t : Option Transform} {fs : String → FloFile} {st : DatasetState}
    (h : FlyingChairs.init ig fg none split t fs = .ok st) : False := by
  unfold FlyingChairs.init at h
  by_cases hs : split = .train ∨ split = .val
  · rw [if_pos hs] at h
    exact absurd h (by simp)
  · rw [if_neg hs] at h
    exact absurd h (by simp)

/-- C4: the arity of the tuple returned by `__getitem__` is fixed by the
variant's built-in-mask flag at construction: KittiFlow instances always
yield 4-tuples, Sintel and FlyingChairs instances always yield 3-tuples,
regardless of split and of any configured transform. -/
theorem getitem_arity :
    (∀ (g1 g2 fg : List String) (split : Split) (t : Option Transform)
        (fs : String → Png16) (st : DatasetState) (index : Nat),
      KittiFlow.init g1 g2 fg split t fs = .ok st →
      quadOrError (FlowDataset.getitem st index) = true) ∧
    (∀ (scenes : List SceneData) (split : Split) (t : Option Transform)
        (fs : String → FloFile) (st : DatasetState) (index : Nat),
      Sintel.init scenes split t fs = .ok st →
      tripleOrError (FlowDataset.getitem st index) = true) ∧
    (∀ (ig fg : List String) (sf : Option (List Int)) (split : Split)
        (t : Option Transform) (fs : String → FloFile) (st : DatasetState) (index : Nat),
      FlyingChairs.init ig fg sf split t fs = .ok st →
      tripleOrError (FlowDataset.getitem st index) = true) := by
  refine ⟨?_, ?_, ?_⟩
  · intro g1 g2 fg split t fs st index h
    exact getitem_quad_of_flag st index (kitti_init_inv h).2.1
  · intro scenes split t fs st index h
    exact getitem_triple_of_flag st index (sintel_init_inv h).2.1
  · intro ig fg sf split t fs st index h
    cases sf with
    | none => exact (chairs_init_none h).elim
    | some sl => exact getitem_triple_of_flag st index (chairs_init_inv h).2.1

/-- Witness for C4 at one concrete instance of each variant. -/
theorem getitem_arity_witness :
    KittiFlow.init ["a"] ["b"] ["f"] .train none defaultPngFS = .ok kittiW ∧
    quadOrError (FlowDataset.getitem kittiW 0) = true ∧
    Sintel.init [⟨"s", ["a"], []⟩] .train none defaultFloFS = .ok sintelW ∧
    tripleOrError (FlowDataset.getitem sintelW 0) = true ∧
    FlyingChairs.init [] ["f"] (some [2]) .train none defaultFloFS = .ok chairsW ∧
    tripleOrError (FlowDataset.getitem chairsW 0) = true :=
  ⟨rfl, getitem_arity.1 ["a"] ["b"] ["f"] .train none defaultPngFS kittiW 0 rfl,
   rfl, getitem_arity.2.1 [⟨"s", ["a"], []⟩] .train none defaultFloFS sintelW 0 rfl,
   rfl, getitem_arity.2.2 [] ["f"] (some [2]) .train none defaultFloFS chairsW 0 rfl⟩

/-- C5: constructing KittiFlow with an empty `_10` or `_11` glob raises the
missing-data `FileNotFoundError`; on a well-formed root (equal glob counts)
the size equals the number of `_10` files. -/
theorem kitti_missing_and_size :
    (∀ (g1 g2 fg : List String) (split : Split) (t : Option Transform)
        (fs : String → Png16), (split = .train ∨ split = .test) →
      (g1 = [] ∨ g2 = []) →
      KittiFlow.init g1 g2 fg split t fs = .error (.fileNotFoundError
        "Could not find the Kitti flow images. Please make sure the directory structure is correct.")) ∧
    (∀ (g1 g2 fg : List String) (split : Split) (t : Option Transform)
        (fs : String → Png16) (st : DatasetState),
      KittiFlow.init g1 g2 fg split t fs = .ok st →
      g1.length = g2.length → FlowDataset.len st = g1.length) := by
  constructor
  · intro g1 g2 fg split t fs hs hemp
    have hcond : (sortedGlob g1).isEmpty = true ∨ (sortedGlob g2).isEmpty = true := by
      rcases hemp with h | h <;> subst h <;> simp [sortedGlob]
    unfold KittiFlow.init
    rw [if_pos hs, if_pos hcond]
  · intro g1 g2 fg split t fs st h hlen
    unfold FlowDataset.len
    rw [(kitti_init_inv h).2.2.2.1]
    simp only [sortedGlob, List.length_zip, List.length_insertionSort]
    omega

/-- Witness for C5: an empty `_10` glob fails; a one-pair root has size 1. -/
theorem kitti_missing_and_size_witness :
    ((Split.train = Split.train ∨ Split.train = Split.test) ∧
      (([] : List String) = [] ∨ (["b"] : List String) = []) ∧
      KittiFlow.init [] ["b"] [] .train none defaultPngFS = .error (.fileNotFoundError
        "Could not find the Kitti flow images. Please make sure the directory structure is correct.")) ∧
    (KittiFlow.init ["a"] ["b"] ["f"] .train none defaultPngFS = .ok kittiW ∧
      (["a"] : List String).length = (["b"] : List String).length ∧
      FlowDataset.len kittiW = (["a"] : List String).length) :=
  ⟨⟨Or.inl rfl, Or.inl rfl,
    kitti_missing_and_size.1 [] ["b"] [] .train none defaultPngFS (Or.inl rfl) (Or.inl rfl)⟩,
   ⟨rfl, rfl,
    kitti_missing_and_size.2 ["a"] ["b"] ["f"] .train none defaultPngFS kittiW rfl rfl⟩⟩

/-- C7: Sintel pairs consecutive frames of each scene's lexicographically
sorted file list — pair i is (sorted[i], sorted[i+1]), a scene with n frames
contributes n - 1 pairs, and the size is the sum of n - 1 over scenes. -/
theorem sintel_pairing (scenes : List SceneData) (split : Split)
    (t : Option Transform) (fs : String → FloFile) (st : DatasetState)
    (h : Sintel.init scenes split t fs = .ok st) :
    st._image_list = scenes.flatMap scenePairs ∧
    (∀ scene : SceneData,
      List.Sorted (· ≤ ·) (sortedGlob scene.imageGlob) ∧
      List.Perm (sortedGlob scene.imageGlob) scene.imageGlob ∧
      (scenePairs scene).length = scene.imageGlob.length - 1 ∧
      (∀ i, i + 1 < (sortedGlob scene.imageGlob).length →
        (scenePairs scene)[i]? =
          some ((sortedGlob scene.imageGlob).getD i "",
            (sortedGlob scene.imageGlob).getD (i + 1) ""))) ∧
    FlowDataset.len st = (scenes.map (fun s => s.imageGlob.length - 1)).sum := by
  refine ⟨(sintel_init_inv h).2.2.2.1, ?_, sintel_len h⟩
  intro scene
  refine ⟨List.sorted_insertionSort _ _, List.perm_insertionSort _ _,
    scenePairs_length scene, ?_⟩
  intro i hi
  have hi' : i < (sortedGlob scene.imageGlob).length - 1 := by omega
  simp [scenePairs, List.getElem?_map, List.getElem?_range hi']

/-- Witness for C7 at the concrete Sintel instance. -/
theorem sintel_pairing_witness :
    Sintel.init [⟨"s", ["a"], []⟩] .train none defaultFloFS = .ok sintelW ∧
    sintelW._image_list = [(⟨"s", ["a"], []⟩ : SceneData)].flatMap scenePairs ∧
    FlowDataset.len sintelW =
      ([(⟨"s", ["a"], []⟩ : SceneData)].map (fun s => s.imageGlob.length - 1)).sum :=
  ⟨rfl,
   (sintel_pairing [⟨"s", ["a"], []⟩] .train none defaultFloFS sintelW rfl).1,
   (sintel_pairing [⟨"s", ["a"], []⟩] .train none defaultFloFS sintelW rfl).2.2⟩

/-- Indices of the flow files retained by the FlyingChairs split filter. -/
def keptIndices (split : Split) (split_list : List Int) (n : Nat) : List Nat :=
  (List.range n).filter (fun i => chairsKeep split (split_list.getD i 0))

/-- The split filter keeps value 1 exactly on the train split and value 2
exactly on the val split. -/
theorem chairsKeep_iff (split : Split) (v : Int) :
    chairsKeep split v = true ↔
      ((split = .train ∧ v = 1) ∨ (split = .val ∧ v = 2)) := by
  simp [chairsKeep]

/-- The index lists of a successful FlyingChairs construction are maps over
the retained indices. -/
theorem chairs_lists {ig fg : List String} {split_list : List Int} {split : Split}
    {t : Option Transform} {fs : String → FloFile} {st : DatasetState}
    (h : FlyingChairs.init ig fg (some split_list) split t fs = .ok st) :
    st._image_list = (keptIndices split split_list (sortedGlob fg).length).map
        (fun i => ((sortedGlob ig).getD (2 * i) "", (sortedGlob ig).getD (2 * i + 1) "")) ∧
    st._flow_list = (keptIndices split split_list (sortedGlob fg).length).map
        (fun i => (sortedGlob fg).getD i "") := by
  have hok := chairsLoopGo_ok (List.range (sortedGlob fg).length) ([], []) _
    (chairs_init_inv h).2.2.2
  exact ⟨by simpa [keptIndices] using hok.1, by simpa [keptIndices] using hok.2⟩

/-- Mapping `getD` over the range of a list's length recovers the list. -/
theorem range_map_getD {α : Type _} (d : α) :
    ∀ l : List α, (List.range l.length).map (fun i => l.getD i d) = l
  | [] => rfl
  | a :: l => by
    rw [List.length_cons, List.range_succ_eq_map]
    simp only [List.map_cons, List.getD_cons_zero, List.map_map]
    have hfun : ((fun i => (a :: l).getD i d) ∘ Nat.succ) = fun i => l.getD i d := by
      funext i
      simp [Function.comp, List.getD_cons_succ]
    rw [hfun, range_map_getD d l]

/-- Filtering the range of a list's length through `getD` counts the same
entries as filtering the list itself. -/
theorem filter_range_getD (q : Int → Bool) (l : List Int) :
    ((List.range l.length).filter (fun i => q (l.getD i 0))).length
      = (l.filter q).length := by
  conv_rhs => rw [← range_map_getD 0 l]
  rw [List.filter_map, List.length_map]
  rfl

/-- C6: FlyingChairs retains split-assignment value 1 only on the train
split and value 2 only on the val split, preserves relative order, pairs
retained flow i with images (2i, 2i+1) of the sorted image list, and — when
the split file has one entry per flow file — retains exactly as many entries
as there are matching values in the split file. -/
theorem chairs_filtering (ig fg : List String) (split_list : List Int) (split : Split)
    (t : Option Transform) (fs : String → FloFile) (st : DatasetState)
    (h : FlyingChairs.init ig fg (some split_list) split t fs = .ok st) :
    (∀ v : Int, chairsKeep split v = true ↔
      ((split = .train ∧ v = 1) ∨ (split = .val ∧ v = 2))) ∧
    st._image_list = (keptIndices split split_list (sortedGlob fg).length).map
        (fun i => ((sortedGlob ig).getD (2 * i) "", (sortedGlob ig).getD (2 * i + 1) "")) ∧
    st._flow_list = (keptIndices split split_list (sortedGlob fg).length).map
        (fun i => (sortedGlob fg).getD i "") ∧
    List.Pairwise (· < ·) (keptIndices split split_list (sortedGlob fg).length) ∧
    (split_list.length = (sortedGlob fg).length →
      st._flow_list.length = (split_list.filter (fun v => chairsKeep split v)).length) := by
  have hl := chairs_lists h
  refine ⟨fun v => chairsKeep_iff split v, hl.1, hl.2, ?_, ?_⟩
  · exact (List.pairwise_lt_range _).filter _
  · intro hlen
    rw [hl.2, List.length_map]
    unfold keptIndices
    rw [← hlen]
    exact filter_range_getD _ split_list

/-- Witness for C6 at the concrete FlyingChairs instance. -/
theorem chairs_filtering_witness :
    FlyingChairs.init [] ["f"] (some [2]) .train none defaultFloFS = .ok chairsW ∧
    chairsW._flow_list = (keptIndices .train [2] (sortedGlob ["f"]).length).map
        (fun i => (sortedGlob ["f"]).getD i "") ∧
    (([2] : List Int).length = (sortedGlob ["f"]).length →
      chairsW._flow_list.length
        = (([2] : List Int).filter (fun v => chairsKeep .train v)).length) :=
  ⟨rfl,
   (chairs_filtering [] ["f"] [2] .train none defaultFloFS chairsW rfl).2.2.1,
   (chairs_filtering [] ["f"] [2] .train none defaultFloFS chairsW rfl).2.2.2.2⟩

/-- C10: a FlyingChairs construction succeeds exactly when the split file
has at least one entry per flow file and the sorted image list reaches
position 2i+1 for every retained index i; a shorter split file or image
list makes construction fail with an IndexError instead of skipping. -/
theorem chairs_index_safety (ig fg : List String) (split_list : List Int)
    (split : Split) (t : Option Transform) (fs : String → FloFile)
    (hs : split = .train ∨ split = .val) :
    (∃ st, FlyingChairs.init ig fg (some split_list) split t fs = .ok st) ↔
    ((sortedGlob fg).length ≤ split_list.length ∧
      ∀ i, i < (sortedGlob fg).length →
        chairsKeep split (split_list.getD i 0) = true →
          2 * i + 1 < (sortedGlob ig).length) := by
  constructor
  · rintro ⟨st, h⟩
    have hall := (chairsLoopGo_isOk_iff (List.range (sortedGlob fg).length) ([], [])).mp
      ⟨_, (chairs_init_inv h).2.2.2⟩
    constructor
    · rcases Nat.eq_zero_or_pos (sortedGlob fg).length with h0 | hpos
      · omega
      · have := (hall ((sortedGlob fg).length - 1) (by rw [List.mem_range]; omega)).1
        omega
    · intro i hi hk
      exact (hall i (by rwa [List.mem_range])).2 hk
  · rintro ⟨hlen, hbound⟩
    have hok : ∀ i ∈ List.range (sortedGlob fg).length,
        i < split_list.length ∧ (chairsKeep split (split_list.getD i 0) = true →
          2 * i + 1 < (sortedGlob ig).length) := by
      intro i hi
      rw [List.mem_range] at hi
      exact ⟨by omega, hbound i hi⟩
    obtain ⟨res, hres⟩ := (@chairsLoopGo_isOk_iff split split_list (sortedGlob ig)
      (sortedGlob fg) (List.range (sortedGlob fg).length) ([], [])).mpr hok
    unfold FlyingChairs.init
    rw [if_pos hs]
    dsimp only
    rw [hres]
    exact ⟨_, rfl⟩

/-- Witness for C10 at the concrete FlyingChairs input. -/
theorem chairs_index_safety_witness :
    (Split.train = Split.train ∨ Split.train = Split.val) ∧
    ((∃ st, FlyingChairs.init [] ["f"] (some [2]) .train none defaultFloFS = .ok st) ↔
      ((sortedGlob ["f"]).length ≤ ([2] : List Int).length ∧
        ∀ i, i < (sortedGlob ["f"]).length →
          chairsKeep .train (([2] : List Int).getD i 0) = true →
            2 * i + 1 < (sortedGlob ([] : List String)).length)) :=
  ⟨Or.inl rfl, chairs_index_safety [] ["f"] [2] .train none defaultFloFS (Or.inl rfl)⟩

/-- Concrete Sintel instance with a silent flow/pair count mismatch: one
scene with a single frame (zero pairs) but one flow file. -/
def sintelMismatchSt : DatasetState :=
  (Sintel.init [⟨"s", ["a"], ["f"]⟩] .train none defaultFloFS).toOption.getD emptyState

/-- C1 counterexample: a Sintel construction whose flow-path list is
non-empty yet differs in length from the image-pair list — the pairing
logic never validates the per-scene flow count, so the claimed invariant
fails on this instance. -/
theorem sintel_length_mismatch_cex :
    Sintel.init [⟨"s", ["a"], ["f"]⟩] .train none defaultFloFS = .ok sintelMismatchSt ∧
    sintelMismatchSt._flow_list ≠ [] ∧
    sintelMismatchSt._flow_list.length ≠ sintelMismatchSt._image_list.length :=
  ⟨rfl, by decide, by decide⟩

/-- C1 amended: FlyingChairs always satisfies the length invariant; Sintel
and KittiFlow satisfy it on the test split (empty flow list) and on the
train split under the precondition that the on-disk flow counts match
(per scene for Sintel, total for KittiFlow) — the code does not validate
this and can silently construct mismatched lists; the invariant, once
established, is preserved by size and get, which never mutate the state. -/
theorem length_invariant_amended :
    (∀ (ig fg : List String) (sf : Option (List Int)) (split : Split)
        (t : Option Transform) (fs : String → FloFile) (st : DatasetState),
      FlyingChairs.init ig fg sf split t fs = .ok st →
      st._flow_list.length = FlowDataset.len st) ∧
    (∀ (scenes : List SceneData) (split : Split) (t : Option Transform)
        (fs : String → FloFile) (st : DatasetState),
      Sintel.init scenes split t fs = .ok st →
      (split = .test → st._flow_list = []) ∧
      (split = .train → (∀ s ∈ scenes, s.flowGlob.length = s.imageGlob.length - 1) →
        st._flow_list.length = FlowDataset.len st)) ∧
    (∀ (g1 g2 fg : List String) (split : Split) (t : Option Transform)
        (fs : String → Png16) (st : DatasetState),
      KittiFlow.init g1 g2 fg split t fs = .ok st →
      (split = .test → st._flow_list = []) ∧
      (split = .train → fg.length = min g1.length g2.length →
        st._flow_list.length = FlowDataset.len st)) ∧
    (∀ (d : DatasetState) (index : Nat), (FlowDataset.getitemSt d index).2 = d) := by
  refine ⟨?_, ?_, ?_, getitemSt_snd⟩
  · intro ig fg sf split t fs st h
    cases sf with
    | none => exact (chairs_init_none h).elim
    | some sl =>
      have hl := chairs_lists h
      unfold FlowDataset.len
      rw [hl.1, hl.2, List.length_map, List.length_map]
  · intro scenes split t fs st h
    have hinv := sintel_init_inv h
    constructor
    · intro hts
      rw [hinv.2.2.2.2, hts]
      simp
    · intro htr hcount
      unfold FlowDataset.len
      rw [hinv.2.2.2.2, hinv.2.2.2.1, htr]
      simp only [if_pos]
      rw [List.length_flatMap, List.length_flatMap]
      have hmaps : scenes.map (List.length ∘ fun s => sortedGlob s.flowGlob)
          = scenes.map (List.length ∘ scenePairs) := by
        apply List.map_congr_left
        intro s hs
        simp [Function.comp, sortedGlob, List.length_insertionSort,
          scenePairs_length, hcount s hs]
      rw [hmaps]
  · intro g1 g2 fg split t fs st h
    have hinv := kitti_init_inv h
    constructor
    · intro hts
      rw [hinv.2.2.2.2.1, hts]
      simp
    · intro htr hlen
      unfold FlowDataset.len
      rw [hinv.2.2.2.2.1, hinv.2.2.2.1, htr]
      simp only [if_pos, sortedGlob, List.length_zip, List.length_insertionSort]
      omega

/-- Witness for C1 (amended) at concrete instances of each variant. -/
theorem length_invariant_amended_witness :
    (FlyingChairs.init [] ["f"] (some [2]) .train none defaultFloFS = .ok chairsW ∧
      chairsW._flow_list.length = FlowDataset.len chairsW) ∧
    (Sintel.init [⟨"s", ["a"], []⟩] .train none defaultFloFS = .ok sintelW ∧
      (∀ s ∈ [(⟨"s", ["a"], []⟩ : SceneData)], s.flowGlob.length = s.imageGlob.length - 1) ∧
      sintelW._flow_list.length = FlowDataset.len sintelW) ∧
    (KittiFlow.init ["a"] ["b"] ["f"] .train none defaultPngFS = .ok kittiW ∧
      (["f"] : List String).length = min (["a"] : List String).length (["b"] : List String).length ∧
      kittiW._flow_list.length = FlowDataset.len kittiW) ∧
    (FlowDataset.getitemSt sintelW 0).2 = sintelW :=
  ⟨⟨rfl, length_invariant_amended.1 [] ["f"] (some [2]) .train none defaultFloFS chairsW rfl⟩,
   ⟨rfl, by decide,
    (length_invariant_amended.2.1 [⟨"s", ["a"], []⟩] .train none defaultFloFS sintelW rfl).2
      rfl (by decide)⟩,
   ⟨rfl, by decide,
    (length_invariant_amended.2.2.1 ["a"] ["b"] ["f"] .train none defaultPngFS kittiW rfl).2
      rfl (by decide)⟩,
   length_invariant_amended.2.2.2 sintelW 0⟩

end OpticalFlow
